import Mathlib

/-!
Shallow embedding of the authentication subsystem of the `devsec-api`
repository (FastAPI service in `src/app`): password hashing and
verification (`app/auth.py` via passlib/bcrypt), JWT issuance and
verification (`app/auth.py` via python-jose), the user store
(`app/models.py`, SQLAlchemy) and the route handlers (`app/main.py`).

Modelling conventions:
- Time is a `Nat` of epoch seconds; `datetime.utcnow()` becomes an explicit
  `now` parameter, `timedelta` a signed number of seconds.
- Python exceptions become `Except` values; an escaped exception (HTTP 500)
  is a `PyError` that is not an `HTTPException`.
- Passwords are byte lists (`List Nat`), matching bcrypt's byte-oriented
  view of its input.
- The bcrypt primitive is idealized as injective on (salt, first 72 bytes
  of the password): passlib's bcrypt handler silently truncates the
  password to 72 bytes (its documented `truncate_size`), and the digest of
  the truncated input is modelled as a collision-free function.
- The HMAC signature of a JWT is idealized as a free term `Sig` formed from
  (key, algorithm, payload): deterministic and injective.  The proofs only
  use determinism plus the fact that a signature value different from the
  recomputed one fails the check, which holds for the real primitive.
-/

namespace DevSecApi

/-- Python exception / HTTP-error outcomes of an endpoint or helper.
`httpException` models `fastapi.HTTPException` (caught by the framework and
turned into that status code); the other constructors model exceptions that
no code in `src/app` catches, i.e. a crash of the operation (HTTP 500). -/
inductive PyError
  | httpException (status : Nat) (detail : String)
  | typeError (msg : String)
  | attributeError (msg : String)
  | unknownHashError
  | nullPasswordError
  | passwordSizeError
  | validationError
deriving Repr, DecidableEq

/-! ## Credential hasher (`app/auth.py`, passlib `CryptContext(schemes=["bcrypt"])`) -/

/-- A password-hash string as passlib classifies it: either a well-formed
bcrypt hash (modular-crypt string carrying a salt and the digest), or a
string `CryptContext` does not recognize as any configured scheme.  The
digest is idealized as the truncated password itself, making the primitive
collision-free on (salt, first 72 bytes); bcrypt silently truncates its
input to 72 bytes. -/
inductive PHash
  | bcrypt (salt : Nat) (digest : List Nat)
  | unrecognized (s : String)
deriving Repr, DecidableEq

/-- Truncation bcrypt applies to the password before digesting: only the
first 72 bytes participate. -/
def bcryptTruncate (p : List Nat) : List Nat := p.take 72

/-- passlib's `MAX_PASSWORD_SIZE`: secrets longer than this raise
`PasswordSizeError`. -/
def MAX_PASSWORD_SIZE : Nat := 4096

/-- Embeds passlib's secret-side validation on the bcrypt path, in
execution order: passlib's entry check (`utils.validate_secret`) raises
`PasswordSizeError` for a secret longer than `MAX_PASSWORD_SIZE` bytes,
then the bcrypt backend rejects a secret containing a NUL byte with
`NullPasswordError`.  Both `hash` and `verify` run these checks. -/
def validate_secret (password : List Nat) : Except PyError Unit :=
  if password.length > MAX_PASSWORD_SIZE then .error .passwordSizeError
  else if password.contains 0 then .error .nullPasswordError
  else .ok ()

/-- Embeds `get_password_hash` (`app/auth.py` lines 26-31):
`pwd_context.hash(password)`.  bcrypt draws a fresh random salt per call;
the salt is made an explicit parameter.  A password longer than 4096 bytes
or containing a NUL byte makes passlib raise (`PasswordSizeError` /
`NullPasswordError`) instead of producing a hash; `get_password_hash` has
no handler, so the exception escapes. -/
def get_password_hash (password : List Nat) (salt : Nat) :
    Except PyError PHash :=
  match validate_secret password with
  | .error e => .error e
  | .ok _ => .ok (.bcrypt salt (bcryptTruncate password))

/-- Embeds `verify_password` (`app/auth.py` lines 34-40):
`pwd_context.verify(plain_password, hashed_password)`.  `CryptContext`
first identifies the hash: a string that matches no configured scheme
raises `UnknownHashError`.  For a recognized bcrypt hash the secret-side
checks of `validate_secret` run next (`PasswordSizeError` /
`NullPasswordError`), then passlib re-digests the plain password with the
embedded salt and compares (idealized: the truncated bytes are compared
directly).  `verify_password` has no handler, so every raised exception
escapes. -/
def verify_password (plain_password : List Nat) (hashed_password : PHash) :
    Except PyError Bool :=
  match hashed_password with
  | .unrecognized _ => .error .unknownHashError
  | .bcrypt _ digest =>
      match validate_secret plain_password with
      | .error e => .error e
      | .ok _ => .ok (bcryptTruncate plain_password == digest)

/-! ## Configuration (`app/config.py`) -/

/-- Modelled from the spec: `app/config.py` is imported by `app/auth.py` and
`app/main.py` but is not in the source tree.  The spec (section 6) names a
process-wide signing secret loaded once at startup; the concrete value is
an opaque stand-in. -/
def SECRET_KEY : String := "secret-key"

/-- Modelled from the spec: the fixed symmetric signing algorithm name of
`app/config.py` (spec section 6, "a symmetric signing algorithm identified
by a fixed algorithm name"). -/
def ALGORITHM : String := "HS256"

/-- Modelled from the spec: the default token lifetime in minutes of
`app/config.py` (spec section 4.2, "a configured default duration, e.g. 30
minutes"). -/
def ACCESS_TOKEN_EXPIRE_MINUTES : Nat := 30

/-! ## Claims mappings (Python `dict[str, Any]`) -/

/-- A JSON claim value.  The tokens this service mints carry exactly a
string `sub` and a numeric `exp`; string and integer values suffice for the
model. -/
inductive JVal
  | str (s : String)
  | num (n : Int)
deriving Repr, DecidableEq

/-- A claims mapping: a Python `dict` in insertion order. -/
abbrev Claims := List (String × JVal)

/-- Dictionary lookup `d.get(k)`. -/
def getClaim (c : Claims) (k : String) : Option JVal :=
  (c.find? (fun p => p.1 == k)).map (·.2)

/-- Dictionary assignment `d[k] = v`: overwrites in place (keeping the
key's position) when the key exists, otherwise appends. -/
def setClaim : Claims → String → JVal → Claims
  | [], k, v => [(k, v)]
  | (k', v') :: rest, k, v =>
      if k' == k then (k, v) :: rest else (k', v') :: setClaim rest k v

/-! ## JWT codec (python-jose, as called from `app/auth.py`) -/

/-- Idealized HMAC signature: a free term of (key, algorithm, payload),
hence deterministic and trivially injective.  A byte flipped inside the
encoded signature segment of a real token decodes to a different signature
value (or fails base64, also a `JWTError`), so tampering is modelled as any
`Sig` value different from the recomputed one. -/
structure Sig where
  key : String
  alg : String
  payload : Claims
deriving Repr, DecidableEq

/-- Recompute the signature for given key, header algorithm and payload. -/
def sigOf (key alg : String) (payload : Claims) : Sig := ⟨key, alg, payload⟩

/-- A structurally well-formed JWT: header algorithm, payload claims,
signature — standing for the three-segment `header.payload.signature` wire
string.  Wire strings that do not parse into this shape fail python-jose
decoding with a `JWTError` before any of the modelled checks run and are
outside the structural model. -/
structure JWT where
  alg : String
  payload : Claims
  sig : Sig
deriving Repr, DecidableEq

/-- Failure kinds of `jose.jwt.decode`: `invalid` for `JWSError`/`JWTError`
(signature mismatch, disallowed algorithm, malformed token), `expired` for
`ExpiredSignatureError`, `claimsInvalid` for `JWTClaimsError` (a registered
claim of the wrong type).  All three are subclasses of `JWTError` in
python-jose, so `except JWTError` in `verify_token` catches each. -/
inductive JoseError
  | invalid
  | expired
  | claimsInvalid
deriving Repr, DecidableEq

/-- Embeds `jose.jwt.encode(claims=..., key=..., algorithm=...)`: serialize
the claims (any `datetime` expiry has already been converted to an integer
timestamp in this model) and sign. -/
def jwtEncode (claims : Claims) (key alg : String) : JWT :=
  ⟨alg, claims, sigOf key alg claims⟩

/-- Python `int(v)` on a claim value, as `jose.jwt._validate_exp` applies it
to the `exp` claim: an integer is returned as is, a string is parsed
(raising `ValueError`, hence `JWTClaimsError`, when not numeric). -/
def pyInt : JVal → Option Int
  | .num n => some n
  | .str s => s.toInt?

/-- Embeds `jose.jwt._validate_iat`: an `iat` claim, when present, must
coerce with `int()`, else `JWTClaimsError`; its value is not compared with
the clock. -/
def validateIat (payload : Claims) : Except JoseError Unit :=
  match getClaim payload "iat" with
  | none => .ok ()
  | some v =>
      match pyInt v with
      | none => .error .claimsInvalid
      | some _ => .ok ()

/-- Embeds `jose.jwt._validate_nbf` (leeway 0): an `nbf` claim, when
present, must coerce with `int()` and must not lie in the future
(`nbf > now` raises `JWTClaimsError`, "The token is not yet valid"). -/
def validateNbf (payload : Claims) (now : Nat) : Except JoseError Unit :=
  match getClaim payload "nbf" with
  | none => .ok ()
  | some v =>
      match pyInt v with
      | none => .error .claimsInvalid
      | some nbf => if nbf > (now : Int) then .error .claimsInvalid else .ok ()

/-- Embeds `jose.jwt._validate_exp` (leeway 0): an `exp` claim, when
present, must coerce with `int()` (else `JWTClaimsError`) and the token is
expired exactly when `exp < now` (`ExpiredSignatureError`); a payload with
no `exp` claim never expires. -/
def validateExp (payload : Claims) (now : Nat) : Except JoseError Unit :=
  match getClaim payload "exp" with
  | none => .ok ()
  | some v =>
      match pyInt v with
      | none => .error .claimsInvalid
      | some e => if e < (now : Int) then .error .expired else .ok ()

/-- Embeds `jose.jwt._validate_aud` as called by `verify_token` (no
`audience=` argument): any token carrying an `aud` claim is rejected with
`JWTClaimsError` — "Invalid audience" for a string audience (`None` is
never in the audience list), "Invalid claim format in token" for a
non-string one. -/
def validateAud (payload : Claims) : Except JoseError Unit :=
  match getClaim payload "aud" with
  | none => .ok ()
  | some _ => .error .claimsInvalid

/-- Embeds `jose.jwt._validate_sub`: a `sub` claim, when present, must be a
string, else `JWTClaimsError` ("Subject must be a string"). -/
def validateSub (payload : Claims) : Except JoseError Unit :=
  match getClaim payload "sub" with
  | some (.num _) => .error .claimsInvalid
  | _ => .ok ()

/-- Embeds `jose.jwt._validate_jti`: a `jti` claim, when present, must be a
string, else `JWTClaimsError`. -/
def validateJti (payload : Claims) : Except JoseError Unit :=
  match getClaim payload "jti" with
  | some (.num _) => .error .claimsInvalid
  | _ => .ok ()

/-- Embeds `jose.jwt._validate_claims` with jose's default options and the
arguments `verify_token` passes (no audience, no issuer, no subject): the
registered claims are validated in jose's order — `iat`, `nbf`, `exp`,
`aud`, `iss` (skipped: no issuer configured), `sub`, `jti` — and the
decoded payload is returned unchanged on success. -/
def validateClaims (payload : Claims) (now : Nat) : Except JoseError Claims :=
  match validateIat payload with
  | .error e => .error e
  | .ok _ =>
      match validateNbf payload now with
      | .error e => .error e
      | .ok _ =>
          match validateExp payload now with
          | .error e => .error e
          | .ok _ =>
              match validateAud payload with
              | .error e => .error e
              | .ok _ =>
                  match validateSub payload with
                  | .error e => .error e
                  | .ok _ =>
                      match validateJti payload with
                      | .error e => .error e
                      | .ok _ => .ok payload

/-- Embeds `jose.jwt.decode(token=..., key=..., algorithms=[...])`: the
header algorithm must be in the allow-list and the signature must equal the
recomputation (`jws.verify`, else `JWSError`/`JWTError`), then the
registered claims are validated per `validateClaims`. -/
def jwtDecode (token : JWT) (key : String) (algorithms : List String)
    (now : Nat) : Except JoseError Claims :=
  if token.alg ∈ algorithms then
    if token.sig = sigOf key token.alg token.payload then
      validateClaims token.payload now
    else .error .invalid
  else .error .invalid

/-! ## Token issuance and verification (`app/auth.py`) -/

/-- Embeds `create_access_token` (`app/auth.py` lines 43-60): deep-copy the
caller's claims, compute `token_time = utcnow() + expires_delta` (default
`timedelta(minutes=ACCESS_TOKEN_EXPIRE_MINUTES)`), set `exp` on the copy,
and encode with `SECRET_KEY`/`ALGORITHM`.  `now` is `utcnow()` in epoch
seconds; `expires_delta` is in seconds (Python `timedelta` may be
negative, hence `Int`). -/
def create_access_token (data : Claims) (expires_delta : Option Int)
    (now : Nat) : JWT :=
  let token_time : Int :=
    (now : Int) + expires_delta.getD (60 * (ACCESS_TOKEN_EXPIRE_MINUTES : Int))
  jwtEncode (setClaim data "exp" (.num token_time)) SECRET_KEY ALGORITHM

/-- Embeds the SQLAlchemy model `User` of `app/models.py` (lines 6-11): the
`users` table declares exactly the columns `id` (autoincrement primary
key), `name`, `age`.  There is no `hash_password` column, although
`app/main.py` passes and reads one. -/
structure UserRow where
  id : Nat
  name : String
  age : Int
deriving Repr, DecidableEq

/-- The `users` table of the session database, in insertion order. -/
abbrev DB := List UserRow

/-- Embeds `db.query(User).filter(User.name == n).first()`: the first stored
row whose `name` column equals `n` under the relational layer's default
(exact, case-sensitive) string comparison. -/
def dbFirstByName (db : DB) (n : String) : Option UserRow :=
  db.find? (fun u => u.name == n)

/-- Embeds `create_user` (`app/main.py` lines 28-35, `POST /users/`): build
`User(name=..., age=...)`, add, commit, refresh, return the row.  No
uniqueness check of any kind is performed.  The autoincrement primary key
is modelled as one past the number of rows ever inserted, which for this
append-only model is `db.length + 1`. -/
def create_user (db : DB) (name : String) (age : Int) : DB × UserRow :=
  let u : UserRow := ⟨db.length + 1, name, age⟩
  (db ++ [u], u)

/-- Embeds `register_users` (`app/main.py` lines 52-66, `POST /register/`):
fetch by name; a match raises `HTTPException` 409 "Name Taken!".  Otherwise
the password is hashed — a step that itself raises for NUL-containing or
oversized passwords — and the handler evaluates
`User(name=..., age=..., hash_password=...)` — but the declarative model of
`app/models.py` declares no `hash_password` attribute, so SQLAlchemy's
generated constructor raises
`TypeError: 'hash_password' is an invalid keyword argument for User`
before anything is added to the session; nothing is stored and the
uncaught exception escapes the handler. -/
def register_users (db : DB) (name : String) (age : Int)
    (password : List Nat) (salt : Nat) : Except PyError (DB × UserRow) :=
  match dbFirstByName db name with
  | some _ => .error (.httpException 409 "Name Taken!")
  | none =>
      match get_password_hash password salt with
      | .error e => .error e
      | .ok _ =>
          .error (.typeError "hash_password is an invalid keyword argument for User")

/-- Embeds the `Token` pydantic response model (`app/db.py` lines 43-45);
`access_token` stands for the encoded JWT string. -/
structure Token where
  access_token : JWT
  token_type : String
deriving Repr, DecidableEq

/-- Embeds `login_token` (`app/main.py` lines 69-88, `POST /token/`): fetch
the user by submitted username; no row raises `HTTPException` 401
"Unauthorized".  With a row found, the handler evaluates
`db_user.hash_password` as an argument to `verify_password` — but the
`User` model of `app/models.py` has no `hash_password` attribute, so the
attribute access raises `AttributeError` before `verify_password` runs;
the uncaught exception escapes the handler.  The remainder of the source
(verify, mint token via `create_access_token` with the configured expiry,
or 401 "Unauthorized" on mismatch) is unreachable. -/
def login_token (db : DB) (username : String) (password : List Nat) :
    Except PyError Token :=
  match dbFirstByName db username with
  | none => .error (.httpException 401 "Unauthorized")
  | some _ =>
      .error (.attributeError "User object has no attribute hash_password")

/-- States of the `users` table reachable through the service's operations
from the empty store.  `create_user` always inserts; `register_users` can
change the store only through a successful return (its two other outcomes,
409 and the constructor `TypeError`, leave the session uncommitted); the
remaining endpoints only read the `users` table or touch `posts`. -/
inductive Reachable : DB → Prop
  | init : Reachable []
  | step_create_user (db : DB) (name : String) (age : Int) :
      Reachable db → Reachable (create_user db name age).1
  | step_register (db db' : DB) (name : String) (age : Int)
      (password : List Nat) (salt : Nat) (u : UserRow) :
      Reachable db → register_users db name age password salt = .ok (db', u) →
      Reachable db'

/-! ## Heap model of `create_access_token`'s effect on the caller's dict

Python dicts are mutable heap objects; to state the frame property ("the
caller's claims mapping is not mutated") the dict arguments are modelled as
references into an explicit heap of claims mappings. -/

/-- A heap of claims dicts; a reference is an index, allocation appends. -/
abbrev Heap := List Claims

/-- Embeds `create_access_token` at the Python object level: `data` is a
reference into the heap.  `copy.deepcopy(data)` allocates a fresh cell with
a structural copy; `data_copy["exp"] = token_time` mutates that fresh cell
only; the result is encoded from the copy.  Returns `none` only for a
dangling reference, which cannot arise from the Python caller. -/
def create_access_token_heap (h : Heap) (data : Nat)
    (expires_delta : Option Int) (now : Nat) : Option (Heap × JWT) :=
  match h[data]? with
  | none => none
  | some d =>
      let copyRef := h.length
      let h1 := h ++ [d]
      let token_time : Int :=
        (now : Int) + expires_delta.getD (60 * (ACCESS_TOKEN_EXPIRE_MINUTES : Int))
      let data_copy := setClaim d "exp" (.num token_time)
      let h2 := h1.set copyRef data_copy
      some (h2, jwtEncode data_copy SECRET_KEY ALGORITHM)

/-! ## Helper lemmas about the dictionary operations -/

/-- Inversion for the hasher's error path: `get_password_hash` raises only
the two passlib secret-side errors, never an `HTTPException`. -/
theorem get_password_hash_error_kinds (p : List Nat) (salt : Nat)
    (e : PyError) (h : get_password_hash p salt = .error e) :
    e = .passwordSizeError ∨ e = .nullPasswordError := by
  unfold get_password_hash validate_secret at h
  by_cases h1 : p.length > MAX_PASSWORD_SIZE
  · rw [if_pos h1] at h
    simp at h
    exact .inl h.symm
  · rw [if_neg h1] at h
    by_cases h2 : p.contains 0 = true
    · rw [if_pos h2] at h
      simp at h
      exact .inr h.symm
    · rw [if_neg h2] at h
      simp at h

/-! ## Claim theorems -/

/-- C1: evaluation of the code at the failing input.  With the user "Rog"
stored, login with any submitted password reaches `db_user.hash_password`
and crashes with `AttributeError` (the `User` model declares no such
attribute), instead of verifying the password and returning a token or 401;
the unknown-username branch does fail with 401 "Unauthorized" as claimed. -/
theorem c1_login_crashes_on_stored_user :
    login_token [⟨1, "Rog", 19⟩] "Rog" [113, 119] =
      .error (.attributeError "User object has no attribute hash_password") ∧
    login_token [⟨1, "Rog", 19⟩] "Ghost" [113, 119] =
      .error (.httpException 401 "Unauthorized") := by
  constructor <;> rfl

/-- C2: evaluation of the code at the failing input.  Registering a fresh
name crashes with `TypeError` — `User(name=..., age=..., hash_password=...)`
passes a keyword the `app/models.py` model does not declare — instead of
storing the user and returning a profile; the duplicate-name branch does
fail with 409 "Name Taken!" as claimed. -/
theorem c2_register_crashes_on_fresh_name :
    register_users [] "Jame" 14 [113, 119, 101, 114, 116, 121] 0 =
      .error (.typeError "hash_password is an invalid keyword argument for User") ∧
    register_users [⟨1, "Jame", 14⟩] "Jame" 14 [113, 119, 101, 114, 116, 121] 0 =
      .error (.httpException 409 "Name Taken!") := by
  constructor <;> rfl

/-- C6 counterexample: `verify_password` on a hash string passlib does not
recognize raises `UnknownHashError` — no boolean "no match" is returned,
and neither `verify_password` nor `login_token` has a handler for it, so
the condition would propagate as a crash rather than being treated as
"does not match". -/
theorem c6_malformed_hash_raises :
    verify_password [113] (PHash.unrecognized "not-a-hash") =
      .error .unknownHashError ∧
    ∀ b : Bool,
      verify_password [113] (PHash.unrecognized "not-a-hash") ≠ .ok b := by
  constructor
  · rfl
  · intro b
    simp [verify_password]

/-- C6 (amended): for a passlib-accepted password (at most 4096 bytes, no
NUL byte) and a well-formed bcrypt hash, `verify` returns a boolean without
raising; for a malformed/unrecognized hash string it raises
`UnknownHashError` (whatever the password), and for a NUL-containing
password it raises `NullPasswordError` even against a well-formed hash —
none of these is caught anywhere in `src/app`, so each is an unhandled
crash of the operation, not a "does not match" result. -/
theorem c6_verify_totality (p pn : List Nat) (s : String) (salt : Nat)
    (digest : List Nat) (hp : validate_secret p = .ok ())
    (hn : pn.contains 0 = true) (hns : ¬ pn.length > MAX_PASSWORD_SIZE) :
    verify_password p (PHash.unrecognized s) = .error .unknownHashError ∧
    verify_password p (PHash.bcrypt salt digest) =
      .ok (bcryptTruncate p == digest) ∧
    verify_password pn (PHash.bcrypt salt digest) =
      .error .nullPasswordError := by
  refine ⟨rfl, ?_, ?_⟩
  · unfold verify_password
    rw [hp]
  · unfold verify_password validate_secret
    rw [if_neg hns, if_pos hn]

/-- Witness for the amended C6: the boolean path at an accepted password,
the `UnknownHashError` path, and the `NullPasswordError` path at `[0]`. -/
theorem c6_verify_totality_witness :
    verify_password [113] (PHash.unrecognized "not-a-hash") =
      .error .unknownHashError ∧
    verify_password [113] (PHash.bcrypt 0 [119]) =
      .ok (bcryptTruncate [113] == [119]) ∧
    verify_password [0] (PHash.bcrypt 0 [119]) =
      .error .nullPasswordError :=
  c6_verify_totality [113] [0] "not-a-hash" 0 [119] rfl rfl (by decide)

/-- C10: token issuance is deterministic — the embedding of
`create_access_token` is a function of exactly the claims mapping, the
expiry delta and the clock reading (the source reads no nonce, token id or
randomness), so two calls with equal inputs at the same clock instant
return identical tokens. -/
theorem c10_issuance_deterministic (c1 c2 : Claims) (d1 d2 : Option Int)
    (n1 n2 : Nat) (hc : c1 = c2) (hd : d1 = d2) (hn : n1 = n2) :
    create_access_token c1 d1 n1 = create_access_token c2 d2 n2 := by
  subst hc
  subst hd
  subst hn
  rfl

/-- Witness for C10 at the concrete login claims of this service. -/
theorem c10_issuance_deterministic_witness :
    create_access_token [("sub", JVal.str "Rog")] (some 1800) 0 =
      create_access_token [("sub", JVal.str "Rog")] (some 1800) 0 :=
  c10_issuance_deterministic [("sub", JVal.str "Rog")]
    [("sub", JVal.str "Rog")] (some 1800) (some 1800) 0 0 rfl rfl rfl

/-- C7: failure kinds of the decoder.  A signature value different from the
recomputation (any byte flipped in the signature segment), or a header
algorithm outside the allow-list, fails with the `TokenInvalid` kind
(`JWTError`); a correctly signed token whose `exp` has passed — and whose
`iat`/`nbf` claims pass the validations jose runs before the expiry check —
fails with the distinct `TokenExpired` kind (`ExpiredSignatureError`).
Both are subclasses of `JWTError`, so the service boundary may collapse
them while the distinction stays observable internally. -/
theorem c7_decode_failure_kinds (key alg alg2 : String) (p : Claims)
    (s : Sig) (now : Nat) (e : Int) :
    (s ≠ sigOf key alg p → jwtDecode ⟨alg, p, s⟩ key [alg] now = .error .invalid) ∧
    (alg2 ≠ alg → jwtDecode ⟨alg2, p, s⟩ key [alg] now = .error .invalid) ∧
    (validateIat p = .ok () → validateNbf p now = .ok () →
      getClaim p "exp" = some (.num e) → e < (now : Int) →
      jwtDecode (jwtEncode p key alg) key [alg] now = .error .expired) := by
  refine ⟨?_, ?_, ?_⟩
  · intro hs
    unfold jwtDecode
    rw [if_pos (by simp), if_neg hs]
  · intro ha
    unfold jwtDecode
    rw [if_neg (by simp [ha])]
  · intro hiat hnbf hexpc he
    simp [jwtDecode, jwtEncode, validateClaims, hiat, hnbf, validateExp,
      hexpc, pyInt, he]

/-- Witness for C7: a flipped signature and a wrong algorithm each yield
the invalid kind; a correctly signed token with valid `iat`/`nbf` decoded
past its expiry yields the expired kind. -/
theorem c7_decode_failure_kinds_witness :
    jwtDecode ⟨"HS256", [], ⟨"other", "HS256", []⟩⟩ "secret-key" ["HS256"] 0 =
      .error .invalid ∧
    jwtDecode ⟨"none", [], ⟨"secret-key", "none", []⟩⟩ "secret-key" ["HS256"] 0 =
      .error .invalid ∧
    jwtDecode (jwtEncode [("exp", JVal.num 10)] "secret-key" "HS256")
      "secret-key" ["HS256"] 11 = .error .expired := by
  refine ⟨?_, ?_, ?_⟩
  · exact (c7_decode_failure_kinds "secret-key" "HS256" "x" []
      ⟨"other", "HS256", []⟩ 0 0).1 (by decide)
  · exact (c7_decode_failure_kinds "secret-key" "HS256" "none" []
      ⟨"secret-key", "none", []⟩ 0 0).2.1 (by decide)
  · exact (c7_decode_failure_kinds "secret-key" "HS256" "x"
      [("exp", JVal.num 10)] ⟨"", "", []⟩ 11 10).2.2 rfl rfl
      (by decide) (by decide)

/-- C8: `create_access_token` does not mutate the caller's claims mapping.
In the heap embedding, the call deep-copies the dict into a fresh cell and
writes the `exp` claim only there: every heap cell that existed before the
call (the caller's dict included) holds its original value afterwards. -/
theorem c8_claims_not_mutated (h : Heap) (data : Nat) (d : Option Int)
    (now : Nat) (hdata : data < h.length) :
    ∃ h' tok, create_access_token_heap h data d now = some (h', tok) ∧
      ∀ r, r < h.length → h'[r]? = h[r]? := by
  rcases hget : h[data]? with _ | d0
  · rw [List.getElem?_eq_none_iff] at hget
    omega
  · have hset : (h ++ [d0]).set h.length
        (setClaim d0 "exp"
          (.num ((now : Int) + d.getD (60 * (ACCESS_TOKEN_EXPIRE_MINUTES : Int))))) =
        h ++ [setClaim d0 "exp"
          (.num ((now : Int) + d.getD (60 * (ACCESS_TOKEN_EXPIRE_MINUTES : Int))))] := by
      rw [List.set_append_right _ _ (le_refl _)]
      simp
    have heq : create_access_token_heap h data d now =
        some ((h ++ [d0]).set h.length
          (setClaim d0 "exp"
            (.num ((now : Int) + d.getD (60 * (ACCESS_TOKEN_EXPIRE_MINUTES : Int))))),
          jwtEncode
            (setClaim d0 "exp"
              (.num ((now : Int) + d.getD (60 * (ACCESS_TOKEN_EXPIRE_MINUTES : Int)))))
            SECRET_KEY ALGORITHM) := by
      unfold create_access_token_heap
      rw [hget]
    refine ⟨_, _, heq, ?_⟩
    intro r hr
    rw [hset, List.getElem?_append_left hr]

/-- Witness for C8: the caller's dict `{"sub": "Rog"}` at heap cell 0 is
unchanged by the call. -/
theorem c8_claims_not_mutated_witness :
    ∃ h' tok,
      create_access_token_heap [[("sub", JVal.str "Rog")]] 0 none 0 =
        some (h', tok) ∧
      ∀ r, r < ([[("sub", JVal.str "Rog")]] : Heap).length →
        h'[r]? = ([[("sub", JVal.str "Rog")]] : Heap)[r]? :=
  c8_claims_not_mutated [[("sub", JVal.str "Rog")]] 0 none 0 (by decide)

/-- C9 counterexample: a state with two stored users that share the
username "Rog" is reachable through the service's operations — `POST
/users/` (`create_user`) inserts without any uniqueness check, so calling
it twice with the same name from the empty store produces duplicate
usernames. -/
theorem c9_duplicate_usernames_reachable :
    Reachable [⟨1, "Rog", 19⟩, ⟨2, "Rog", 19⟩] ∧
    (⟨1, "Rog", 19⟩ : UserRow) ≠ ⟨2, "Rog", 19⟩ ∧
    (⟨1, "Rog", 19⟩ : UserRow).name = (⟨2, "Rog", 19⟩ : UserRow).name := by
  refine ⟨?_, by decide, rfl⟩
  have h0 := Reachable.init
  have h1 := Reachable.step_create_user [] "Rog" 19 h0
  have h2 := Reachable.step_create_user (create_user [] "Rog" 19).1 "Rog" 19 h1
  exact h2

/-- C9 (amended): username comparison for the "exists?" check of register
and the "fetch by username" of login is exact-match, case-sensitive string
equality; `register_users` rejects with `NameTaken` precisely when a stored
user has that exact name; but `create_user` (`POST /users/`) inserts
unconditionally, with no uniqueness check, so stored usernames need not be
unique across reachable states. -/
theorem c9_lookup_exact_and_create_unchecked :
    (∀ (db : DB) (n : String) (u : UserRow),
      dbFirstByName db n = some u → u.name = n) ∧
    (∀ (db : DB) (n : String) (a : Int) (pw : List Nat) (salt : Nat),
      register_users db n a pw salt = .error (.httpException 409 "Name Taken!") ↔
        ∃ u ∈ db, u.name = n) ∧
    (∀ (db : DB) (n : String) (a : Int),
      (create_user db n a).1 = db ++ [⟨db.length + 1, n, a⟩]) := by
  refine ⟨?_, ?_, ?_⟩
  · intro db n u hfind
    unfold dbFirstByName at hfind
    have hp := List.find?_some hfind
    simpa using hp
  · intro db n a pw salt
    constructor
    · intro hreg
      unfold register_users at hreg
      rcases hfind : dbFirstByName db n with _ | u
      · rw [hfind] at hreg
        rcases hh : get_password_hash pw salt with e | hs <;> rw [hh] at hreg
        · simp at hreg
          rcases get_password_hash_error_kinds pw salt e hh with hk | hk <;>
            simp [hk] at hreg
        · simp at hreg
      · have hfind' := hfind
        unfold dbFirstByName at hfind'
        exact ⟨u, List.mem_of_find?_eq_some hfind',
          by simpa using List.find?_some hfind'⟩
    · rintro ⟨u, hu, hname⟩
      have hsome : (dbFirstByName db n).isSome := by
        unfold dbFirstByName
        rw [List.find?_isSome]
        exact ⟨u, hu, by simp [hname]⟩
      rcases hfind : dbFirstByName db n with _ | u2
      · rw [hfind] at hsome
        simp at hsome
      · unfold register_users
        rw [hfind]
  · intro db n a
    rfl

/-- Witness for the amended C9: the lookup that finds "Rog" returns a user
whose name is exactly "Rog", and register's conflict outcome coincides with
exact-name membership. -/
theorem c9_lookup_exact_witness :
    (⟨1, "Rog", 19⟩ : UserRow).name = "Rog" ∧
    ∃ u ∈ ([⟨1, "Rog", 19⟩] : DB), u.name = "Rog" :=
  ⟨c9_lookup_exact_and_create_unchecked.1 [⟨1, "Rog", 19⟩] "Rog" ⟨1, "Rog", 19⟩
      (by decide),
    (c9_lookup_exact_and_create_unchecked.2.1 [⟨1, "Rog", 19⟩] "Rog" 19 [113] 0).mp
      (by rfl)⟩

end DevSecApi
